import Mathlib

/-!
Shallow embedding of the cross-view synchronization core of the housing
dashboard (panel.js, charts.js, map.js).

Conventions of the embedding:
* JS numbers appearing as dollar amounts (`MEDIAN_RENT`, time-series rents,
  per-neighborhood means) are modelled as `ℤ`; percentage-like attribute
  values (`RENT_BURDEN_PCT`, GRAPI buckets, demographic shares) as `ℚ`.
  `Math.round(sum / len)` on integers is modelled exactly as the integer
  `(2 * sum + len) / (2 * len)` (floor division, see `jsRoundDiv_eq_floor`,
  which identifies it with `⌊sum / len + 1/2⌋`, the mathematical meaning of
  `Math.round` on nonnegative arguments).
* A possibly-absent attribute is an `Option`; JS `undefined`/`null` is `none`.
* JS `a || b` defaulting on strings is `jsOr` (both `undefined` and the empty
  string are falsy).
* DOM/chart side effects are modelled as fields of explicit state records;
  a chart "loads" a series by replacing the corresponding field.
-/

namespace HouseDash

/-- The three thematic layers of the dashboard (panel.js `activeLayer`). -/
inductive Layer
  | rent
  | burden
  | mha
deriving DecidableEq, Repr

/-- Attribute record of one tract feature (`f.properties`). Fields not used
by the synchronization core are omitted. -/
structure TractProps where
  MEDIAN_RENT : Option ℤ := none
  RENT_BURDEN_PCT : Option ℚ := none
  NEIGHBORHOOD : Option String := none
  GEOID : Option String := none
deriving DecidableEq, Repr

/-- JS string defaulting `s || dflt`: `undefined` and `""` are falsy. -/
def jsOr (s : Option String) (dflt : String) : String :=
  match s with
  | none => dflt
  | some t => if t = "" then dflt else t

/-- JS `Math.round (s / n)` for an integer sum `s` and a count `n`, computed
exactly in integer arithmetic: `⌊s / n + 1/2⌋ = (2 * s + n) / (2 * n)`
(`/` on `ℤ` is Euclidean division, which is floor division for a positive
divisor). -/
def jsRoundDiv (s : ℤ) (n : ℕ) : ℤ :=
  (2 * s + n) / (2 * n)

theorem jsRoundDiv_eq_floor (s : ℤ) (n : ℕ) (hn : 0 < n) :
    jsRoundDiv s n = ⌊(s : ℚ) / (n : ℚ) + 1 / 2⌋ := by
  have hq : ((n : ℚ)) ≠ 0 := Nat.cast_ne_zero.mpr hn.ne'
  have key : (s : ℚ) / (n : ℚ) + 1 / 2 = (((2 * s + n : ℤ) : ℚ)) / (((2 * n : ℕ) : ℚ)) := by
    push_cast
    field_simp
    ring
  rw [key, Rat.floor_intCast_div_natCast]
  unfold jsRoundDiv
  push_cast
  ring_nf

/-- What the stat block displays (`#stat-value` with its label context):
the no-data marker, a dollar amount, a burden percentage, or the static
MHA policy label. -/
inductive StatDisplay
  | dash
  | money (amount : ℤ)
  | percent (value : ℚ)
  | policy
deriving DecidableEq, Repr

/-- The truthiness test of `updateStat`'s rent branch, `v && v > 0`, on a
possibly-missing numeric value: missing, zero (falsy) and negative values
all fail. -/
def truthyPos (v : Option ℤ) : Bool :=
  match v with
  | none => false
  | some q => decide (0 < q)

/-- The filtered rent list of `updateStat`:
`data.map(d => d.MEDIAN_RENT).filter(v => v && v > 0)`. -/
def rentsOf (data : List TractProps) : List ℤ :=
  ((data.map (fun d => d.MEDIAN_RENT)).filter truthyPos).filterMap id

/-- The filtered burden list of `updateStat`:
`data.map(d => d.RENT_BURDEN_PCT).filter(v => v !== null && v !== undefined)`. -/
def burdensOf (data : List TractProps) : List ℚ :=
  (data.map (fun d => d.RENT_BURDEN_PCT)).filterMap id

/-- panel.js `updateStat(data)` under the given active layer. The burden
branch displays `avg.toFixed(1)`; the value being formatted is the mean,
which is what `percent` carries (string formatting is presentation). -/
def updateStat (layer : Layer) (data : List TractProps) : StatDisplay :=
  if data.length = 0 then .dash
  else
    match layer with
    | .rent =>
        let rents := rentsOf data
        if rents.length = 0 then .dash
        else .money (jsRoundDiv rents.sum rents.length)
    | .burden =>
        let burdens := burdensOf data
        if burdens.length = 0 then .dash
        else .percent (burdens.sum / (burdens.length : ℚ))
    | .mha => .policy

/-- The spec's description of the filtered set for the rent stat: the
`MEDIAN_RENT` values of exactly those records whose `MEDIAN_RENT` is a
positive number. -/
def specRentValues (data : List TractProps) : List ℤ :=
  (data.filterMap (fun d => d.MEDIAN_RENT)).filter (fun v => decide (0 < v))

theorem rentsOf_eq_specRentValues (data : List TractProps) :
    rentsOf data = specRentValues data := by
  induction data with
  | nil => rfl
  | cons d rest ih =>
      unfold rentsOf specRentValues at *
      cases h : d.MEDIAN_RENT with
      | none => simp [truthyPos, h, ih]
      | some v =>
          by_cases hv : 0 < v
          · simp [truthyPos, h, hv, ih]
          · simp [truthyPos, h, hv, ih]

/-- A list of integers each at least 1 sums to at least its length. -/
theorem length_le_sum_of_one_le (l : List ℤ) (h : ∀ q ∈ l, 1 ≤ q) :
    (l.length : ℤ) ≤ l.sum := by
  induction l with
  | nil => simp
  | cons x xs ih =>
      simp only [List.length_cons, List.sum_cons]
      have hx := h x (List.mem_cons_self x xs)
      have hxs := ih (fun q hq => h q (List.mem_cons_of_mem _ hq))
      push_cast
      linarith

theorem one_le_jsRoundDiv (s : ℤ) (n : ℕ) (hn : 0 < n) (hs : (n : ℤ) ≤ s) :
    1 ≤ jsRoundDiv s n := by
  rw [jsRoundDiv_eq_floor s n hn, Int.le_floor]
  have hnq : (0 : ℚ) < (n : ℚ) := by exact_mod_cast hn
  have hsq : ((n : ℤ) : ℚ) ≤ (s : ℚ) := by exact_mod_cast hs
  have hmean : (1 : ℚ) ≤ (s : ℚ) / (n : ℚ) := by
    rw [le_div_iff₀ hnq]
    push_cast at hsq
    linarith
  push_cast
  linarith

/-- C1 (amended): for every visible set whose positive `MEDIAN_RENT` values
are nonempty, the rent stat displays the arithmetic mean of exactly those
values rounded to the nearest integer (`Math.round`), with non-positive and
missing values excluded from both the numerator and the count. -/
theorem updateStat_rent_rounded_mean (data : List TractProps)
    (h : specRentValues data ≠ []) :
    updateStat .rent data =
      .money ⌊((specRentValues data).sum : ℚ) / ((specRentValues data).length : ℚ) + 1 / 2⌋ := by
  have hr : rentsOf data = specRentValues data := rentsOf_eq_specRentValues data
  have hlen : (specRentValues data).length ≠ 0 := by
    simpa [List.length_eq_zero] using h
  have hdata : data.length ≠ 0 := by
    intro h0
    have hnil : data = [] := List.length_eq_zero.mp h0
    subst hnil
    exact h rfl
  unfold updateStat
  rw [if_neg hdata]
  simp only [hr]
  rw [if_neg hlen, jsRoundDiv_eq_floor _ _ (Nat.pos_of_ne_zero hlen)]

/-- Visible pair with rents 1000 and 1001: the true mean is 2001/2. -/
def rentPairEx : List TractProps :=
  [{ MEDIAN_RENT := some 1000 }, { MEDIAN_RENT := some 1001 }]

/-- The spec example: visible rents 1000, 0, 2000. -/
def rentTripleEx : List TractProps :=
  [{ MEDIAN_RENT := some 1000 }, { MEDIAN_RENT := some 0 }, { MEDIAN_RENT := some 2000 }]

/-- C1 counterexample: on the visible set with rents 1000 and 1001 the code
displays the integer 1001 while the arithmetic mean of the included values
is 2001/2, so the displayed stat does not equal the arithmetic mean. -/
theorem updateStat_rent_not_exact_mean :
    updateStat .rent rentPairEx = .money 1001 ∧
    ((specRentValues rentPairEx).sum : ℚ) / ((specRentValues rentPairEx).length : ℚ) = 2001 / 2 ∧
    (1001 : ℚ) ≠ 2001 / 2 := by
  refine ⟨by decide, ?_, by norm_num⟩
  have hv : specRentValues rentPairEx = [1000, 1001] := by decide
  rw [hv]
  norm_num

/-- Witness for C1: the spec's own instance. The zero record is excluded and
the displayed mean is 1500. -/
theorem updateStat_rent_rounded_mean_witness :
    specRentValues rentTripleEx ≠ [] ∧
    updateStat .rent rentTripleEx =
      .money ⌊((specRentValues rentTripleEx).sum : ℚ) /
        ((specRentValues rentTripleEx).length : ℚ) + 1 / 2⌋ ∧
    updateStat .rent rentTripleEx = .money 1500 :=
  ⟨by decide, updateStat_rent_rounded_mean rentTripleEx (by decide), by decide⟩

/-- A visible set whose only record has a negative rent and no burden value. -/
def negRentEx : List TractProps :=
  [{ MEDIAN_RENT := some (-50) }]

/-- C7: over the empty visible set, and whenever no record passes the
per-layer filter, the stat renders the explicit no-data marker; and under
the dataset invariant that rents are whole positive dollars it never
renders 0. -/
theorem updateStat_no_data_marker (layer : Layer) (data : List TractProps) :
    updateStat layer [] = .dash ∧
    (rentsOf data = [] → updateStat .rent data = .dash) ∧
    (burdensOf data = [] → updateStat .burden data = .dash) ∧
    ((∀ q ∈ rentsOf data, 1 ≤ q) → updateStat .rent data ≠ .money 0) := by
  refine ⟨by cases layer <;> rfl, ?_, ?_, ?_⟩
  · intro h
    unfold updateStat
    by_cases hd : data.length = 0
    · rw [if_pos hd]
    · rw [if_neg hd]
      simp [h]
  · intro h
    unfold updateStat
    by_cases hd : data.length = 0
    · rw [if_pos hd]
    · rw [if_neg hd]
      simp [h]
  · intro h
    unfold updateStat
    by_cases hd : data.length = 0
    · rw [if_pos hd]
      simp
    · rw [if_neg hd]
      by_cases hre : (rentsOf data).length = 0
      · simp [hre]
      · simp only [if_neg hre]
        intro hc
        have hj : jsRoundDiv (rentsOf data).sum (rentsOf data).length = 0 := by
          simpa using hc
        have hpos : 0 < (rentsOf data).length := Nat.pos_of_ne_zero hre
        have hsum : ((rentsOf data).length : ℤ) ≤ (rentsOf data).sum :=
          length_le_sum_of_one_le _ h
        have hone := one_le_jsRoundDiv _ _ hpos hsum
        omega

/-- Witness for C7: a one-record set failing both per-layer filters renders
the dash for the rent and burden layers, and the empty set renders it for
the MHA layer. -/
theorem updateStat_no_data_marker_witness :
    updateStat .mha [] = .dash ∧
    updateStat .rent negRentEx = .dash ∧
    updateStat .burden negRentEx = .dash ∧
    updateStat .rent negRentEx ≠ .money 0 :=
  ⟨(updateStat_no_data_marker .mha negRentEx).1,
   (updateStat_no_data_marker .rent negRentEx).2.1 (by decide),
   (updateStat_no_data_marker .burden negRentEx).2.2.1 (by decide),
   (updateStat_no_data_marker .rent negRentEx).2.2.2 (by decide)⟩

/-- One element of the array handed to `updateBarChart`:
`{ neighborhood, rent }`. The neighborhood may be absent when the function
is called with raw records. -/
structure BarDatum where
  neighborhood : Option String := none
  rent : ℤ
deriving DecidableEq, Repr

/-- `d.neighborhood || 'Unknown'`. -/
def neighborhoodKey (d : BarDatum) : String :=
  jsOr d.neighborhood "Unknown"

/-- Keys of the JS accumulation object `grouped`, in insertion order
(neighborhood names are assumed non-numeric strings, for which JS object
key order is insertion order). -/
def groupKeys (data : List BarDatum) : List String :=
  (data.map neighborhoodKey).foldl (fun acc n => if n ∈ acc then acc else acc ++ [n]) []

/-- The rents pushed under one key, in data order. -/
def groupValues (data : List BarDatum) (k : String) : List ℤ :=
  (data.filter (fun d => neighborhoodKey d == k)).map (fun d => d.rent)

/-- `Object.entries(grouped)` mapped to `(name, Math.round(mean))` pairs. -/
def groupMeans (data : List BarDatum) : List (String × ℤ) :=
  (groupKeys data).map
    (fun k => (k, jsRoundDiv (groupValues data k).sum (groupValues data k).length))

/-- The order realized by the stable JS `sort((a, b) => b.rent - a.rent)`:
`a` may stay before `b` exactly when `b.rent ≤ a.rent`. -/
def rentDescBy (a b : String × ℤ) : Prop := b.2 ≤ a.2

instance : DecidableRel rentDescBy := fun a b => Int.decLe b.2 a.2

instance : IsTotal (String × ℤ) rentDescBy := ⟨fun a b => le_total b.2 a.2⟩

instance : IsTrans (String × ℤ) rentDescBy := ⟨fun _ _ _ h1 h2 => le_trans h2 h1⟩

/-- Strict descending order on means, for stating strict sortedness. -/
def strictRentDesc (a b : String × ℤ) : Prop := b.2 < a.2

instance : DecidableRel strictRentDesc := fun a b => Int.decLt b.2 a.2

/-- The ranked-bar series of `updateBarChart`: group by neighborhood,
average (rounded), keep positive means, sort descending (stable), take the
top 8. -/
def barPipeline (data : List BarDatum) : List (String × ℤ) :=
  (List.insertionSort rentDescBy
    ((groupMeans data).filter (fun p => decide (0 < p.2)))).take 8

/-- charts.js `updateBarChart(data)` acting on the current bar series: the
early returns leave the chart untouched. -/
def updateBarChart (chart : List (String × ℤ)) (data : List BarDatum) :
    List (String × ℤ) :=
  if data.length = 0 then chart
  else
    let sorted := barPipeline data
    if sorted.length = 0 then chart else sorted

/-- Ten distinct neighborhoods with ten distinct positive rents. -/
def tenDistinctEx : List BarDatum :=
  [{ neighborhood := some "n0", rent := 1000 }, { neighborhood := some "n1", rent := 1100 },
   { neighborhood := some "n2", rent := 1200 }, { neighborhood := some "n3", rent := 1300 },
   { neighborhood := some "n4", rent := 1400 }, { neighborhood := some "n5", rent := 1500 },
   { neighborhood := some "n6", rent := 1600 }, { neighborhood := some "n7", rent := 1700 },
   { neighborhood := some "n8", rent := 1800 }, { neighborhood := some "n9", rent := 1900 }]

/-- Ten distinct neighborhoods all sharing the positive rent 1000. -/
def tenTiedEx : List BarDatum :=
  [{ neighborhood := some "n0", rent := 1000 }, { neighborhood := some "n1", rent := 1000 },
   { neighborhood := some "n2", rent := 1000 }, { neighborhood := some "n3", rent := 1000 },
   { neighborhood := some "n4", rent := 1000 }, { neighborhood := some "n5", rent := 1000 },
   { neighborhood := some "n6", rent := 1000 }, { neighborhood := some "n7", rent := 1000 },
   { neighborhood := some "n8", rent := 1000 }, { neighborhood := some "n9", rent := 1000 }]

/-- C5 (amended): the ranked bar series groups by neighborhood, rounds each
group mean, discards non-positive rounded means, sorts in non-increasing
(descending, ties allowed) order of rounded mean and truncates to at most 8
entries, every entry having a positive mean; with 10 distinct neighborhoods
of distinct positive means the series has exactly 8 entries and is strictly
descending. -/
theorem barPipeline_spec (data : List BarDatum) :
    (barPipeline data).length ≤ 8 ∧
    List.Pairwise rentDescBy (barPipeline data) ∧
    (∀ p ∈ barPipeline data, 0 < p.2) ∧
    (barPipeline tenDistinctEx).length = 8 ∧
    List.Pairwise strictRentDesc (barPipeline tenDistinctEx) := by
  refine ⟨List.length_take_le 8 _, ?_, ?_, by decide, by decide⟩
  · exact List.Pairwise.sublist (List.take_sublist 8 _)
      (List.sorted_insertionSort rentDescBy _)
  · intro p hp
    have hmem : p ∈ List.insertionSort rentDescBy
        ((groupMeans data).filter (fun p => decide (0 < p.2))) :=
      List.mem_of_mem_take hp
    have hfil : p ∈ (groupMeans data).filter (fun p => decide (0 < p.2)) :=
      (List.mem_insertionSort rentDescBy).mp hmem
    have := List.of_mem_filter hfil
    simpa using this

/-- Witness for C5: the distinct-rents input realizes the spec; the top
entry is `n9`, mean 1900, which is positive. -/
theorem barPipeline_spec_witness :
    (barPipeline tenDistinctEx).length ≤ 8 ∧
    (0 : ℤ) < (("n9", (1900 : ℤ)) : String × ℤ).2 :=
  ⟨(barPipeline_spec tenDistinctEx).1,
   (barPipeline_spec tenDistinctEx).2.2.1 ("n9", 1900) (by decide)⟩

/-- C5 counterexample: ten distinct neighborhoods, every group mean the
positive value 1000: the series has exactly 8 entries but is not strictly
descending by mean. -/
theorem barPipeline_ties_not_strict :
    (groupMeans tenTiedEx).length = 10 ∧
    ((groupMeans tenTiedEx).filter (fun p => decide (0 < p.2))).length = 10 ∧
    (barPipeline tenTiedEx).length = 8 ∧
    ¬ List.Pairwise strictRentDesc (barPipeline tenTiedEx) := by
  refine ⟨by decide, by decide, by decide, by decide⟩

/-- Deduplication by GEOID in `updateFromMap`: keeps the first record per
truthy GEOID and drops records whose GEOID is missing or empty
(`if (id && !seen.has(id))`). -/
def dedupByGEOID (features : List TractProps) : List TractProps :=
  (features.foldl
    (fun (acc : List TractProps × List String) f =>
      match f.GEOID with
      | none => acc
      | some g => if g = "" ∨ g ∈ acc.2 then acc else (acc.1 ++ [f], acc.2 ++ [g]))
    ([], [])).1

/-- The `{ neighborhood, rent }` array `updateFromMap` builds for the bar
chart: deduplicated records with positive `MEDIAN_RENT` only. -/
def barDataOf (visible : List TractProps) : List BarDatum :=
  (visible.filter (fun p => truthyPos p.MEDIAN_RENT)).map
    (fun p => { neighborhood := some (jsOr p.NEIGHBORHOOD "Unknown")
                rent := p.MEDIAN_RENT.getD 0 })

/-- The pair of views `updateFromMap` drives: the stat block and the ranked
bar chart. -/
structure ViewState where
  statDisplay : StatDisplay
  barSeries : List (String × ℤ)
deriving DecidableEq, Repr

/-- map.js `updateFromMap()`. `activeLayer` is panel.js's global read by
`updateStat`; `rentVisible`/`burdenVisible` is the current visibility of the
two fill layers (burden wins when both are visible, mirroring the
assignment order); `features` is the `queryRenderedFeatures` result. -/
def updateFromMap (activeLayer : Layer) (rentVisible burdenVisible : Bool)
    (features : List TractProps) (vs : ViewState) : ViewState :=
  let visibleLayer : Option Layer :=
    if burdenVisible then some .burden
    else if rentVisible then some .rent
    else none
  match visibleLayer with
  | none => { vs with statDisplay := updateStat activeLayer [] }
  | some _ =>
      let visible := dedupByGEOID features
      { statDisplay := updateStat activeLayer visible
        barSeries := updateBarChart vs.barSeries (barDataOf visible) }

/-- C4 (amended): a recomputation pass always overwrites the stat from the
new visible set (the no-data marker when no fill layer is visible), while
the bar chart is rewritten through `updateBarChart`, which leaves the prior
series untouched whenever the incoming data or the grouped series is empty;
the two views are not updated atomically. -/
theorem updateFromMap_views (al : Layer) (rv bv : Bool)
    (features : List TractProps) (vs : ViewState) :
    ((bv || rv) = true →
      (updateFromMap al rv bv features vs).statDisplay =
        updateStat al (dedupByGEOID features)) ∧
    ((bv || rv) = true →
      (updateFromMap al rv bv features vs).barSeries =
        updateBarChart vs.barSeries (barDataOf (dedupByGEOID features))) ∧
    ((bv || rv) = false →
      (updateFromMap al rv bv features vs).statDisplay = .dash ∧
      (updateFromMap al rv bv features vs).barSeries = vs.barSeries) ∧
    (∀ (chart : List (String × ℤ)) (data : List BarDatum),
      data.length = 0 ∨ (barPipeline data).length = 0 →
      updateBarChart chart data = chart) := by
  refine ⟨?_, ?_, ?_, ?_⟩
  · intro h
    cases bv <;> cases rv <;> simp_all [updateFromMap]
  · intro h
    cases bv <;> cases rv <;> simp_all [updateFromMap]
  · intro h
    cases bv <;> cases rv <;> simp_all [updateFromMap]
    cases al <;> rfl
  · intro chart data h
    unfold updateBarChart
    rcases h with h | h
    · rw [if_pos h]
    · by_cases hd : data.length = 0
      · rw [if_pos hd]
      · rw [if_neg hd]
        show (if (barPipeline data).length = 0 then chart else barPipeline data) = chart
        rw [if_pos h]

/-- A view state holding a nonzero stat and a nonempty bar series. -/
def staleBarsVS : ViewState :=
  { statDisplay := .money 1500, barSeries := [("Ballard", 2000)] }

/-- C4 counterexample: with the rent layer visible and an empty viewport
query, one pass sets the stat to the no-data marker while the bar chart
keeps its stale nonzero series: the stat changed and the bar chart did not,
so the pass neither updated both views together nor left both unchanged. -/
theorem updateFromMap_views_disagree :
    (updateFromMap .rent true false [] staleBarsVS).statDisplay = .dash ∧
    (updateFromMap .rent true false [] staleBarsVS).barSeries = [("Ballard", 2000)] ∧
    staleBarsVS.statDisplay ≠ .dash ∧
    ([("Ballard", (2000 : ℤ))] : List (String × ℤ)) ≠ [] := by
  refine ⟨by decide, by decide, by decide, by decide⟩

/-- Witness for C4: with the rent fill visible, the pass recomputes the
stat from the (empty) deduplicated visible set and routes the bar series
through `updateBarChart`, which leaves an empty update alone. -/
theorem updateFromMap_views_witness :
    (updateFromMap .rent true false [] staleBarsVS).statDisplay =
      updateStat .rent (dedupByGEOID []) ∧
    (updateFromMap .rent true false [] staleBarsVS).barSeries =
      updateBarChart staleBarsVS.barSeries (barDataOf (dedupByGEOID [])) ∧
    updateBarChart [("Ballard", (2000 : ℤ))] [] = [("Ballard", 2000)] :=
  ⟨(updateFromMap_views .rent true false [] staleBarsVS).1 (by decide),
   (updateFromMap_views .rent true false [] staleBarsVS).2.1 (by decide),
   (updateFromMap_views .rent true false [] staleBarsVS).2.2.2 [("Ballard", 2000)] []
     (Or.inl (by decide))⟩

/-- Outcome of the panel.js startup `Promise.all` load of the three
demographic sources. -/
structure PanelLoadOutcome where
  dashDataSet : Bool
  chartsInitialized : Bool
  initialRender : Bool
  errorsLogged : ℕ
deriving DecidableEq, Repr

/-- panel.js startup: `Promise.all` joins the three fetches; the `then`
branch stores the data, initializes the charts and renders the initial
state; the single `catch` logs one error and nothing is initialized. -/
def panelLoad (ok50 ok30 okIncome : Bool) : PanelLoadOutcome :=
  if ok50 && ok30 && okIncome then
    { dashDataSet := true, chartsInitialized := true, initialRender := true, errorsLogged := 0 }
  else
    { dashDataSet := false, chartsInitialized := false, initialRender := false, errorsLogged := 1 }

/-- Outcome of the map.js `map.on('load')` handler, which issues the MHA
fetch and the housing fetch as two independent promise chains, each with
its own `catch`. -/
structure MapLoadOutcome where
  mhaLayersAdded : Bool
  housingLayersAdded : Bool
  eventsWired : Bool
  chartsInitialized : Bool
  panelInitialized : Bool
  statAndBarScheduled : Bool
  errorsLogged : ℕ
deriving DecidableEq, Repr

/-- map.js `map.on('load')`: the MHA chain adds the two MHA layers iff its
fetch and parse succeed; the housing chain adds the housing layers, wires
the events, runs `initCharts()` and `initPanel()` and schedules the first
stat/bar update iff its own fetch and parse succeed; each failed chain
logs one error. Neither chain awaits or inspects the other. -/
def mapLoad (okMha okHousing : Bool) : MapLoadOutcome :=
  { mhaLayersAdded := okMha
    housingLayersAdded := okHousing
    eventsWired := okHousing
    chartsInitialized := okHousing
    panelInitialized := okHousing
    statAndBarScheduled := okHousing
    errorsLogged := (if okMha then 0 else 1) + (if okHousing then 0 else 1) }

/-- C2 (amended): the panel.js `Promise.all` load is all-or-nothing — any
single failure yields one logged error and no derived state; the map.js
load handles its two sources independently, so the housing-derived state
(layers, events, charts, panel) is initialized exactly when the housing
fetch succeeds, regardless of the MHA fetch. -/
theorem load_failure_isolation (a b c okMha okHousing : Bool) :
    ((a && b && c) = false →
      panelLoad a b c =
        { dashDataSet := false, chartsInitialized := false,
          initialRender := false, errorsLogged := 1 }) ∧
    ((a && b && c) = true →
      panelLoad a b c =
        { dashDataSet := true, chartsInitialized := true,
          initialRender := true, errorsLogged := 0 }) ∧
    (mapLoad okMha okHousing).chartsInitialized = okHousing ∧
    (mapLoad okMha okHousing).panelInitialized = okHousing ∧
    (mapLoad okMha okHousing).mhaLayersAdded = okMha := by
  refine ⟨?_, ?_, rfl, rfl, rfl⟩
  · intro h
    unfold panelLoad
    rw [if_neg]
    simp [h]
  · intro h
    unfold panelLoad
    rw [if_pos h]

/-- C2 counterexample: when the MHA fetch fails and the housing fetch
succeeds, the map.js load still initializes charts, panel and housing
layers from the source that succeeded — a partial success with one
console error, not a whole-load failure. -/
theorem mapLoad_lopsided_success :
    (mapLoad false true).chartsInitialized = true ∧
    (mapLoad false true).panelInitialized = true ∧
    (mapLoad false true).housingLayersAdded = true ∧
    (mapLoad false true).mhaLayersAdded = false ∧
    (mapLoad false true).errorsLogged = 1 := by
  refine ⟨rfl, rfl, rfl, rfl, by decide⟩

/-- Witness for C2: one failing source aborts the whole panel.js load. -/
theorem load_failure_isolation_witness :
    panelLoad true true false =
      { dashDataSet := false, chartsInitialized := false,
        initialRender := false, errorsLogged := 1 } ∧
    (mapLoad true true).chartsInitialized = true :=
  ⟨(load_failure_isolation true true false true true).1 (by decide),
   (load_failure_isolation true true false true true).2.2.1⟩

/-- Visibility of the four thematic map layers. -/
structure LayerVis where
  rentFill : Bool
  burdenFill : Bool
  mhaFill : Bool
  mhaLine : Bool
deriving DecidableEq, Repr

/-- Effect of map.js `switchMapLayer(layer)` on the four thematic layers:
hide all, then show the selected one (the MHA selection shows both its
fill and its outline). -/
def switchVis (l : Layer) : LayerVis :=
  match l with
  | .rent => { rentFill := true, burdenFill := false, mhaFill := false, mhaLine := false }
  | .burden => { rentFill := false, burdenFill := true, mhaFill := false, mhaLine := false }
  | .mha => { rentFill := false, burdenFill := false, mhaFill := true, mhaLine := true }

/-- Placeholder series of the line chart (initCharts / resetCharts). -/
def lineSeriesPlaceholder : List (ℤ × ℤ) := []

/-- Placeholder title of the line chart. -/
def lineTitlePlaceholder : String := "Click a tract · Rent Over Time"

/-- Placeholder title of the donut chart. -/
def donutTitlePlaceholder : String := "Click a tract · Rent Burden Breakdown"

/-- Placeholder series of the donut chart: six zero buckets. -/
def donutSeriesPlaceholder : List ℚ := [0, 0, 0, 0, 0, 0]

/-- Placeholder series of the ranked bar chart (empty columns). -/
def barSeriesPlaceholder : List (String × ℤ) := []

/-- Placeholder series of the trend chart (empty columns). -/
def trendSeriesPlaceholder : List (ℤ × ℚ) := []

/-- The combined mutable dashboard state touched by the reset action and
the chart updates. -/
structure DashState where
  activeLayer : Layer
  currentYear : ℤ
  currentThreshold : ℤ
  legendLayer : Layer
  statLabel : String
  statValue : String
  statSub : String
  lineTitle : String
  lineSeries : List (ℤ × ℤ)
  donutTitle : String
  donutSeries : List ℚ
  barSeries : List (String × ℤ)
  trendSeries : List (ℤ × ℚ)
  raceSeries : List ℚ
  incomeSeries : List ℚ
  tooltipShown : Bool
  hoveredTractId : Option String
  mapAtDefaultView : Bool
  vis : LayerVis
deriving DecidableEq, Repr

/-- The reset click handler (panel.js `initResetButton`), inlining
`resetCharts()` (charts.js: line and donut back to placeholder) and
`resetMap()` (map.js: fly to the default view, `switchMapLayer('rent')`,
clear the hover highlight) and `hideTooltip()`. The deferred
`updateFromMap` pass that `switchMapLayer` schedules runs later as its own
event and is not part of this synchronous handler. -/
def resetClick (s : DashState) : DashState :=
  { s with
    activeLayer := .rent
    legendLayer := .rent
    statLabel := "Avg. Median Rent · Visible Tracts"
    statValue := "—"
    statSub := "Hover a tract for details"
    lineTitle := lineTitlePlaceholder
    lineSeries := lineSeriesPlaceholder
    donutTitle := donutTitlePlaceholder
    donutSeries := donutSeriesPlaceholder
    mapAtDefaultView := true
    vis := switchVis .rent
    hoveredTractId := none
    tooltipShown := false }

/-- C3 (amended): for every prior state, reset restores the active layer to
rent (legend and map layer visibility included), resets the stat block
text, clears hover and tooltip, recenters the map, and returns the two
click-driven charts (line and donut) to their placeholders — while leaving
the ranked bar series, the trend series, the category-breakdown series,
the year and the threshold exactly as they were. -/
theorem resetClick_spec (s : DashState) :
    (resetClick s).activeLayer = .rent ∧
    (resetClick s).legendLayer = .rent ∧
    (resetClick s).statValue = "—" ∧
    (resetClick s).lineTitle = lineTitlePlaceholder ∧
    (resetClick s).lineSeries = lineSeriesPlaceholder ∧
    (resetClick s).donutTitle = donutTitlePlaceholder ∧
    (resetClick s).donutSeries = donutSeriesPlaceholder ∧
    (resetClick s).hoveredTractId = none ∧
    (resetClick s).tooltipShown = false ∧
    (resetClick s).mapAtDefaultView = true ∧
    (resetClick s).vis = switchVis .rent ∧
    (resetClick s).barSeries = s.barSeries ∧
    (resetClick s).trendSeries = s.trendSeries ∧
    (resetClick s).raceSeries = s.raceSeries ∧
    (resetClick s).incomeSeries = s.incomeSeries ∧
    (resetClick s).currentYear = s.currentYear ∧
    (resetClick s).currentThreshold = s.currentThreshold :=
  ⟨rfl, rfl, rfl, rfl, rfl, rfl, rfl, rfl, rfl, rfl, rfl, rfl, rfl, rfl, rfl, rfl, rfl⟩

/-- A fully mutated dashboard state: MHA layer, changed year and threshold,
populated charts, hover and tooltip active, moved viewport. -/
def mutatedDash : DashState :=
  { activeLayer := .mha
    currentYear := 2015
    currentThreshold := 30
    legendLayer := .mha
    statLabel := "MHA Zones · Visible Area"
    statValue := "Policy"
    statSub := "Mandatory Housing Affordability overlay"
    lineTitle := "Ballard · Rent Over Time"
    lineSeries := [(2020, 1800)]
    donutTitle := "Ballard · Rent Burden"
    donutSeries := [0, 0, 0, 0, 0, 0]
    barSeries := [("Ballard", 2000)]
    trendSeries := [(2006, 0)]
    raceSeries := []
    incomeSeries := []
    tooltipShown := true
    hoveredTractId := some "53033000100"
    mapAtDefaultView := false
    vis := switchVis .mha }

/-- C3 counterexample: after reset from a mutated state, the ranked bar
series still holds its stale nonempty entry (not the placeholder), the
trend series is untouched, and year and threshold keep their non-default
values 2015 and 30 instead of the documented defaults. -/
theorem resetClick_not_full_defaults :
    (resetClick mutatedDash).barSeries = [("Ballard", 2000)] ∧
    [("Ballard", (2000 : ℤ))] ≠ barSeriesPlaceholder ∧
    (resetClick mutatedDash).trendSeries ≠ trendSeriesPlaceholder ∧
    (resetClick mutatedDash).currentYear = 2015 ∧
    (2015 : ℤ) ≠ 2022 ∧
    (resetClick mutatedDash).currentThreshold = 30 ∧
    (30 : ℤ) ≠ 50 := by
  refine ⟨rfl, by decide, by decide, rfl, by decide, rfl, by decide⟩

/-- The panel-side state the layer-toggle handler touches, with a counter
of legend/stat/bar recomputation passes. -/
structure PanelState where
  activeLayer : Layer
  legendLayer : Layer
  vis : LayerVis
  viewRecomputes : ℕ
deriving DecidableEq, Repr

/-- The layer-toggle click handler (panel.js `initLayerToggle`): clicking
the already-active layer returns early; otherwise it sets the active
layer, re-renders the legend and calls `switchMapLayer`, which retargets
visibility and schedules one stat/bar recomputation pass (counted in
`viewRecomputes`). -/
def setLayerClick (l : Layer) (s : PanelState) : PanelState :=
  if l = s.activeLayer then s
  else
    { activeLayer := l
      legendLayer := l
      vis := switchVis l
      viewRecomputes := s.viewRecomputes + 1 }

/-- Whether a thematic layer is shown by a visibility state (the MHA layer
is shown through both its fill and its outline). -/
def thematicShown (v : LayerVis) : Layer → Bool
  | .rent => v.rentFill
  | .burden => v.burdenFill
  | .mha => v.mhaFill && v.mhaLine

/-- C8: the layer toggle is idempotent — a repeated click is the identity,
a click on the active layer changes nothing and recomputes nothing, and a
click on a different layer sets it, re-renders the legend, runs exactly
one recomputation pass and shows exactly the selected thematic layer. -/
theorem setLayerClick_spec (l : Layer) (s : PanelState) :
    setLayerClick l (setLayerClick l s) = setLayerClick l s ∧
    (l = s.activeLayer → setLayerClick l s = s) ∧
    (l ≠ s.activeLayer →
      (setLayerClick l s).activeLayer = l ∧
      (setLayerClick l s).legendLayer = l ∧
      (setLayerClick l s).viewRecomputes = s.viewRecomputes + 1 ∧
      ∀ l2, thematicShown (setLayerClick l s).vis l2 = decide (l2 = l)) := by
  refine ⟨?_, ?_, ?_⟩
  · by_cases h : l = s.activeLayer
    · simp [setLayerClick, h]
    · simp [setLayerClick, h]
  · intro h
    simp [setLayerClick, h]
  · intro h
    unfold setLayerClick
    rw [if_neg h]
    refine ⟨rfl, rfl, rfl, ?_⟩
    intro l2
    cases l2 <;> cases l <;> rfl

/-- The panel state right after startup. -/
def initialPanel : PanelState :=
  { activeLayer := .rent, legendLayer := .rent, vis := switchVis .rent, viewRecomputes := 0 }

/-- Witness for C8: toggling to burden from the initial state, twice, and
re-clicking the already-active rent layer. -/
theorem setLayerClick_spec_witness :
    setLayerClick .burden (setLayerClick .burden initialPanel) =
      setLayerClick .burden initialPanel ∧
    setLayerClick .rent initialPanel = initialPanel ∧
    (setLayerClick .burden initialPanel).activeLayer = .burden ∧
    thematicShown (setLayerClick .burden initialPanel).vis .rent =
      decide (Layer.rent = .burden) :=
  ⟨(setLayerClick_spec .burden initialPanel).1,
   (setLayerClick_spec .rent initialPanel).2.1 rfl,
   ((setLayerClick_spec .burden initialPanel).2.2 (by decide)).1,
   ((setLayerClick_spec .burden initialPanel).2.2 (by decide)).2.2.2 .rent⟩

/-- `map.getLayer(id)` over the map's layer table (id ↦ visibility). -/
def getLayer (m : List (String × String)) (id : String) : Option (String × String) :=
  m.find? (fun p => p.1 == id)

/-- `map.setLayoutProperty(id, 'visibility', v)`: throws when the layer
does not exist in the style. -/
def setLayoutProperty (m : List (String × String)) (id v : String) :
    Except String (List (String × String)) :=
  if (m.find? (fun p => p.1 == id)).isSome then
    .ok (m.map (fun p => if p.1 == id then (p.1, v) else p))
  else
    .error ("The layer " ++ id ++ " does not exist in the style")

/-- map.js `setLayerVisibility(layerId, visibility)`: the layout change is
guarded by `map.getLayer`, so missing layers are skipped. -/
def setLayerVisibility (m : List (String × String)) (id v : String) :
    Except String (List (String × String)) :=
  if (getLayer m id).isSome then setLayoutProperty m id v else .ok m

/-- The total effect of one guarded visibility change. -/
def applyVis (m : List (String × String)) (id v : String) : List (String × String) :=
  m.map (fun p => if p.1 == id then (p.1, v) else p)

theorem setLayerVisibility_eq_ok (m : List (String × String)) (id v : String) :
    setLayerVisibility m id v = .ok (applyVis m id v) := by
  unfold setLayerVisibility setLayoutProperty getLayer applyVis
  by_cases h : (m.find? (fun p => p.1 == id)).isSome
  · simp [h]
  · have hn : m.find? (fun p => p.1 == id) = none := Option.not_isSome_iff_eq_none.mp h
    have hall := List.find?_eq_none.mp hn
    have hcong : ∀ p ∈ m, (if p.1 == id then (p.1, v) else p) = p := by
      intro p hp
      have hne := hall p hp
      simp only [Bool.not_eq_true] at hne
      simp [hne]
    have hmap : m.map (fun p => if p.1 == id then (p.1, v) else p) = m := by
      rw [List.map_congr_left hcong]
      simp
    rw [if_neg h]
    exact congrArg Except.ok hmap.symm

/-- map.js `switchMapLayer(layer)`: hide the four thematic layers, then
show the selected one; every change goes through the guarded
`setLayerVisibility`. -/
def switchMapLayer (layer : String) (m : List (String × String)) :
    Except String (List (String × String)) := do
  let m1 ← setLayerVisibility m "rent-fill" "none"
  let m2 ← setLayerVisibility m1 "burden-fill" "none"
  let m3 ← setLayerVisibility m2 "mha-fill" "none"
  let m4 ← setLayerVisibility m3 "mha-line" "none"
  if layer == "rent" then
    setLayerVisibility m4 "rent-fill" "visible"
  else if layer == "burden" then
    setLayerVisibility m4 "burden-fill" "visible"
  else if layer == "mha" then do
    let m5 ← setLayerVisibility m4 "mha-fill" "visible"
    setLayerVisibility m5 "mha-line" "visible"
  else
    pure m4

/-- The same switch as a total function on the layer table. -/
def switchMapLayerRun (layer : String) (m : List (String × String)) :
    List (String × String) :=
  let m4 := applyVis (applyVis (applyVis (applyVis m "rent-fill" "none")
    "burden-fill" "none") "mha-fill" "none") "mha-line" "none"
  if layer == "rent" then applyVis m4 "rent-fill" "visible"
  else if layer == "burden" then applyVis m4 "burden-fill" "visible"
  else if layer == "mha" then applyVis (applyVis m4 "mha-fill" "visible") "mha-line" "visible"
  else m4

/-- C9: `switchMapLayer` never throws — for every argument string (known
layer name or not) and every layer table (layers added or not) it returns
normally, and a visibility change on a missing layer is silently
skipped. -/
theorem switchMapLayer_never_throws (layer : String) (m : List (String × String)) :
    switchMapLayer layer m = .ok (switchMapLayerRun layer m) ∧
    (∀ id v, getLayer m id = none → setLayerVisibility m id v = .ok m) := by
  constructor
  · unfold switchMapLayer switchMapLayerRun
    simp only [setLayerVisibility_eq_ok, bind, Except.bind]
    split
    · rfl
    · split
      · rfl
      · split
        · rfl
        · rfl
  · intro id v h
    unfold setLayerVisibility
    simp [h]

/-- A layer table in which only the rent fill layer has been added. -/
def rentOnlyLayers : List (String × String) := [("rent-fill", "visible")]

/-- Witness for C9: switching to the MHA layer before the MHA layers were
added returns normally, and the guarded change on the absent burden layer
is a no-op. -/
theorem switchMapLayer_never_throws_witness :
    switchMapLayer "mha" rentOnlyLayers = .ok (switchMapLayerRun "mha" rentOnlyLayers) ∧
    setLayerVisibility rentOnlyLayers "burden-fill" "none" = .ok rentOnlyLayers ∧
    switchMapLayerRun "mha" rentOnlyLayers = [("rent-fill", "none")] :=
  ⟨(switchMapLayer_never_throws "mha" rentOnlyLayers).1,
   (switchMapLayer_never_throws "mha" rentOnlyLayers).2 "burden-fill" "none" (by decide),
   by decide⟩

/-- One row of the demographic burden datasets
(`Rent_Burden_Greater_than_*` feature properties). -/
structure DemoRow where
  YEAR : ℤ
  TENURE : String
  RACE : String
  AGE : String
  All_ : ℚ
deriving DecidableEq, Repr

/-- One row of the renter-household income dataset. -/
structure IncomeRow where
  YEAR : ℤ
  F0_30 : ℚ
  F30_50 : ℚ
  F50_80 : ℚ
  F80_120 : ℚ
  Above120 : ℚ
deriving DecidableEq, Repr

/-- `window.dashData` after the panel load. -/
structure DashData where
  burden50 : List DemoRow
  burden30 : List DemoRow
  income : List IncomeRow
deriving DecidableEq, Repr

/-- The fixed race category list of `updateYearCharts`. -/
def raceNames : List String := ["White", "Black", "Asian", "Hispanic", "Native"]

/-- The year-scoped outputs `updateYearCharts` drives. -/
structure YearCharts where
  raceSeries : List ℚ
  raceYearLabel : ℤ
  incomeSeries : List ℚ
  incomeYearLabel : ℤ
  burdenStat : Option ℚ
deriving DecidableEq, Repr

/-- The row lookup `dataset.find(f => f.YEAR === year && f.TENURE ===
'Renters' && f.RACE === race && f.AGE === 'All')`. -/
def findDemoRow (dataset : List DemoRow) (year : ℤ) (race : String) : Option DemoRow :=
  dataset.find? (fun f =>
    decide (f.YEAR = year) && (f.TENURE == "Renters") && (f.RACE == race) && (f.AGE == "All"))

/-- charts.js `updateYearCharts(year, threshold)`: the race chart always
loads, each category missing for the year defaulting to 0; the income
chart and its year label are only touched when an income row for the year
exists; the burden stat is only touched when the aggregate row exists. -/
def updateYearCharts (year threshold : ℤ) (d : DashData) (st : YearCharts) : YearCharts :=
  let dataset := if threshold = 50 then d.burden50 else d.burden30
  let raceValues := raceNames.map (fun race =>
    match findDemoRow dataset year race with
    | some row => row.All_
    | none => 0)
  let st1 := { st with raceSeries := raceValues, raceYearLabel := year }
  let st2 :=
    match d.income.find? (fun f => decide (f.YEAR = year)) with
    | some r =>
        { st1 with
          incomeSeries := [r.F0_30, r.F30_50, r.F50_80, r.F80_120, r.Above120]
          incomeYearLabel := year }
    | none => st1
  match findDemoRow dataset year "All" with
  | some row => { st2 with burdenStat := some row.All_ }
  | none => st2

/-- C6 (amended): for a year with no row in the datasets, the race
breakdown renders all-zero values (each missing category defaults to 0)
without raising, while the income breakdown, its year label and the
burden stat are left unchanged rather than zeroed. -/
theorem updateYearCharts_missing_year (year threshold : ℤ) (d : DashData) (st : YearCharts)
    (hb : ∀ r ∈ (if threshold = 50 then d.burden50 else d.burden30), r.YEAR ≠ year)
    (hi : ∀ r ∈ d.income, r.YEAR ≠ year) :
    (updateYearCharts year threshold d st).raceSeries = [0, 0, 0, 0, 0] ∧
    (updateYearCharts year threshold d st).raceYearLabel = year ∧
    (updateYearCharts year threshold d st).incomeSeries = st.incomeSeries ∧
    (updateYearCharts year threshold d st).incomeYearLabel = st.incomeYearLabel ∧
    (updateYearCharts year threshold d st).burdenStat = st.burdenStat := by
  have hfindb : ∀ race,
      findDemoRow (if threshold = 50 then d.burden50 else d.burden30) year race = none := by
    intro race
    apply List.find?_eq_none.mpr
    intro r hr
    have := hb r hr
    simp [this]
  have hfindi : d.income.find? (fun f => decide (f.YEAR = year)) = none := by
    apply List.find?_eq_none.mpr
    intro r hr
    simp [hi r hr]
  unfold updateYearCharts
  simp only [hfindb, hfindi]
  simp [raceNames]

/-- A data set whose rows all carry the year 2022. -/
def demoDataEx : DashData :=
  { burden50 := [{ YEAR := 2022, TENURE := "Renters", RACE := "All", AGE := "All", All_ := 1 }]
    burden30 := []
    income := [{ YEAR := 2022, F0_30 := 10, F30_50 := 11, F50_80 := 12,
                 F80_120 := 13, Above120 := 14 }] }

/-- A year-chart state showing nonzero income values. -/
def yearChartsEx : YearCharts :=
  { raceSeries := [0, 0, 0, 0, 0]
    raceYearLabel := 2022
    incomeSeries := [7, 7, 7, 7, 7]
    incomeYearLabel := 2022
    burdenStat := some 1 }

/-- C6 counterexample: for the absent year 2005 the race chart loads
all-zero values, but the income breakdown keeps its stale nonzero series
instead of rendering all-zero values for every category. -/
theorem updateYearCharts_income_stale :
    (updateYearCharts 2005 50 demoDataEx yearChartsEx).raceSeries = [0, 0, 0, 0, 0] ∧
    (updateYearCharts 2005 50 demoDataEx yearChartsEx).incomeSeries = [7, 7, 7, 7, 7] ∧
    ([(7 : ℚ), 7, 7, 7, 7] : List ℚ) ≠ [0, 0, 0, 0, 0] ∧
    demoDataEx.income.all (fun r => decide (r.YEAR ≠ 2005)) = true := by
  refine ⟨by decide, by decide, by decide, by decide⟩

/-- Witness for C6: the missing-year theorem applied to the concrete
absent year 2005. -/
theorem updateYearCharts_missing_year_witness :
    (updateYearCharts 2005 50 demoDataEx yearChartsEx).raceSeries = [0, 0, 0, 0, 0] ∧
    (updateYearCharts 2005 50 demoDataEx yearChartsEx).incomeSeries =
      yearChartsEx.incomeSeries ∧
    (updateYearCharts 2005 50 demoDataEx yearChartsEx).burdenStat =
      yearChartsEx.burdenStat :=
  ⟨(updateYearCharts_missing_year 2005 50 demoDataEx yearChartsEx
      (by decide) (by decide)).1,
   (updateYearCharts_missing_year 2005 50 demoDataEx yearChartsEx
      (by decide) (by decide)).2.2.1,
   (updateYearCharts_missing_year 2005 50 demoDataEx yearChartsEx
      (by decide) (by decide)).2.2.2.2⟩

/-- One entry of a tract's embedded rent time-series. -/
structure TsEntry where
  year : ℤ
  rent : ℤ
deriving DecidableEq, Repr

/-- Ascending year order realized by the stable JS sort
`(a, b) => a.year - b.year`. -/
def yearAscBy (a b : TsEntry) : Prop := a.year ≤ b.year

instance : DecidableRel yearAscBy := fun a b => Int.decLe a.year b.year

instance : IsTotal TsEntry yearAscBy := ⟨fun a b => le_total a.year b.year⟩

instance : IsTrans TsEntry yearAscBy := ⟨fun _ _ _ h1 h2 => le_trans h1 h2⟩

/-- The line chart together with its `#chart2-title` element. -/
structure LineChart where
  title : String
  series : List (ℤ × ℤ)
deriving DecidableEq, Repr

/-- charts.js `updateLineChart(tractName, timeseries)`: an empty input or
an input with no positive rent entry leaves the chart and its title
untouched; otherwise the valid entries are sorted by year and loaded. -/
def updateLineChart (tractName : String) (timeseries : List TsEntry)
    (chart : LineChart) : LineChart :=
  if timeseries.length = 0 then chart
  else
    let valid := List.insertionSort yearAscBy
      (timeseries.filter (fun d => decide (0 < d.rent)))
    if valid.length = 0 then chart
    else
      { title := tractName ++ " · Rent Over Time"
        series := valid.map (fun d => (d.year, d.rent)) }

/-- The click-relevant attributes of a clicked feature. `RENT_TIMESERIES`
is stored as a JSON string and is modelled by its parse outcome: `none` =
property absent (the code then parses the literal `'[]'`), `some none` =
present but not valid JSON, `some (some l)` = present and parses to `l`. -/
structure ClickProps where
  NAME : Option String := none
  RENT_TIMESERIES : Option (Option (List TsEntry)) := none
  GRAPI_LESS_15 : Option ℚ := none
  GRAPI_15_20 : Option ℚ := none
  GRAPI_20_25 : Option ℚ := none
  GRAPI_25_30 : Option ℚ := none
  GRAPI_30_35 : Option ℚ := none
  GRAPI_35_PLUS : Option ℚ := none
deriving DecidableEq, Repr

/-- `JSON.parse(props.RENT_TIMESERIES || '[]')` as a fallible step. -/
def jsonParseTimeseries (p : Option (Option (List TsEntry))) :
    Except String (List TsEntry) :=
  match p with
  | none => .ok []
  | some none => .error "SyntaxError: unexpected token"
  | some (some l) => .ok l

/-- The `try { timeseries = JSON.parse(...) } catch` of the click handler:
a parse failure keeps the initialized empty list. -/
def parsedTimeseries (p : Option (Option (List TsEntry))) : List TsEntry :=
  match jsonParseTimeseries p with
  | .ok l => l
  | .error _ => []

/-- The two click-driven charts. -/
structure ClickCharts where
  line : LineChart
  donutTitle : String
  donutSeries : List ℚ
deriving DecidableEq, Repr

/-- charts.js `updateDonutChart(tractName, props)`: always loads, each
missing GRAPI bucket defaulting to 0. -/
def updateDonutChart (tractName : String) (props : ClickProps)
    (st : ClickCharts) : ClickCharts :=
  { st with
    donutTitle := tractName ++ " · Rent Burden"
    donutSeries := [props.GRAPI_LESS_15.getD 0, props.GRAPI_15_20.getD 0,
      props.GRAPI_20_25.getD 0, props.GRAPI_25_30.getD 0,
      props.GRAPI_30_35.getD 0, props.GRAPI_35_PLUS.getD 0] }

/-- The map.js click handler body for a clicked tract feature. -/
def tractClick (props : ClickProps) (st : ClickCharts) : ClickCharts :=
  let name := jsOr props.NAME "Selected Tract"
  let ts := parsedTimeseries props.RENT_TIMESERIES
  let st1 := { st with line := updateLineChart name ts st.line }
  updateDonutChart name props st1

/-- C10: a missing or unparseable `RENT_TIMESERIES` is caught and replaced
by the empty list (no exception escapes the handler), and whenever the
effective time-series has no entry with a positive rent the line chart and
its title are left exactly as they were. -/
theorem tractClick_safe (props : ClickProps) (st : ClickCharts) :
    (props.RENT_TIMESERIES = none → parsedTimeseries props.RENT_TIMESERIES = []) ∧
    ((∃ e, jsonParseTimeseries props.RENT_TIMESERIES = .error e) →
      parsedTimeseries props.RENT_TIMESERIES = []) ∧
    ((parsedTimeseries props.RENT_TIMESERIES).filter (fun d => decide (0 < d.rent)) = [] →
      (tractClick props st).line = st.line) := by
  refine ⟨?_, ?_, ?_⟩
  · intro h
    rw [h]
    rfl
  · intro h
    rcases h with ⟨e, he⟩
    unfold parsedTimeseries
    rw [he]
  · intro h
    show updateLineChart (jsOr props.NAME "Selected Tract")
      (parsedTimeseries props.RENT_TIMESERIES) st.line = st.line
    unfold updateLineChart
    by_cases hts : (parsedTimeseries props.RENT_TIMESERIES).length = 0
    · rw [if_pos hts]
    · rw [if_neg hts]
      show (if (List.insertionSort yearAscBy
          ((parsedTimeseries props.RENT_TIMESERIES).filter
            (fun d => decide (0 < d.rent)))).length = 0
        then st.line else _) = st.line
      rw [h]
      rfl

/-- A clicked feature whose `RENT_TIMESERIES` is present but not valid
JSON. -/
def badJsonProps : ClickProps :=
  { NAME := some "Ballard", RENT_TIMESERIES := some none }

/-- A clicked feature whose time-series parses but has no positive rent. -/
def zeroRentProps : ClickProps :=
  { NAME := some "Ballard", RENT_TIMESERIES := some (some [{ year := 2020, rent := 0 }]) }

/-- The click-driven charts in their placeholder state. -/
def clickChartsEx : ClickCharts :=
  { line := { title := lineTitlePlaceholder, series := [] }
    donutTitle := donutTitlePlaceholder
    donutSeries := donutSeriesPlaceholder }

/-- Witness for C10: the unparseable feature is caught and yields the
empty list, and neither it nor an all-zero-rent series changes the line
chart or its title. -/
theorem tractClick_safe_witness :
    parsedTimeseries badJsonProps.RENT_TIMESERIES = [] ∧
    (tractClick badJsonProps clickChartsEx).line = clickChartsEx.line ∧
    (tractClick zeroRentProps clickChartsEx).line = clickChartsEx.line :=
  ⟨(tractClick_safe badJsonProps clickChartsEx).2.1 ⟨"SyntaxError: unexpected token", rfl⟩,
   (tractClick_safe badJsonProps clickChartsEx).2.2 (by decide),
   (tractClick_safe zeroRentProps clickChartsEx).2.2 (by decide)⟩

end HouseDash
